import Mathlib

/-!
Verification of the Inoreader MCP server's core logic, shallowly embedded
from the Python sources (`config.py`, `oauth_client.py`, `inoreader_client.py`,
`tools.py`, `main.py`).  Python strings are modelled as Lean `String`s,
Python's unbounded integers as `Int`/`Nat`, wall-clock time is passed
explicitly, fallible code returns `Except`, and HTTP traffic is represented
by explicit request/response values and effect traces.
-/

namespace Ino

/-- Model of Python's `str.startswith`: a character-level prefix test
(`s.startswith(pre)`). -/
def py_startswith (s p : String) : Bool :=
  p.data.isPrefixOf s.data

/-- Whitespace characters stripped by `str.strip()` and skipped by
`json.loads`; the inputs handled by this system are ASCII, for which the
two whitespace sets agree on these four characters. -/
def isWs (c : Char) : Bool :=
  c == ' ' || c == '\t' || c == '\n' || c == '\r'

/-- Model of Python's `str.strip()` on character lists: drop whitespace
from both ends. -/
def pyStripChars (cs : List Char) : List Char :=
  ((cs.dropWhile isWs).reverse.dropWhile isWs).reverse

/-- Model of Python's `str.strip()`. -/
def py_strip (s : String) : String :=
  ⟨pyStripChars s.data⟩

/-- Model of Python's `needle in haystack` substring test. -/
def containsSub (hay needle : List Char) : Bool :=
  needle.isPrefixOf hay ||
    match hay with
    | [] => false
    | _ :: t => containsSub t needle

/-- `needle` occurs as a contiguous substring of `hay`. -/
def py_in (needle hay : String) : Bool :=
  containsSub hay.data needle.data

/-! ### `config.py` -/

/-- `Config.CACHE_TTL = 300  # 5 minutes` (config.py line 17). -/
def Config.CACHE_TTL : Nat := 300

/-- `Config.REQUEST_TIMEOUT = 10` (config.py line 20). -/
def Config.REQUEST_TIMEOUT : Nat := 10

/-- `Config.MAX_ARTICLES_PER_REQUEST = 50` (config.py line 21). -/
def Config.MAX_ARTICLES_PER_REQUEST : Nat := 50

/-- The class attributes actually defined on `Config` in config.py
(lines 8-21).  Note that `INOREADER_USERNAME` and `INOREADER_PASSWORD`
are absent: `Config.validate` (lines 35-55) aborts if they are even set
in the environment, stating that "This version uses OAuth2". -/
def Config.definedAttrs : List String :=
  ["INOREADER_APP_ID", "INOREADER_APP_KEY", "INOREADER_BASE_URL",
   "OAUTH_TOKEN_URL", "OAUTH_AUTH_URL", "CACHE_TTL", "REQUEST_TIMEOUT",
   "MAX_ARTICLES_PER_REQUEST"]

/-! ### Stream-identifier normalization (inoreader_client.py)

`tag_article`, `untag_article`, `rename_tag` and `delete_tag` each inline
the same conditional: prefix the name with the `user_label` scheme unless
it already starts with it (lines 290-309, 363-379, 386-405, 461-477); it
is captured once here. -/

/-- The tag/folder qualification scheme (the string is spelled out in the
definition body; it cannot appear in comments because it contains comment
delimiters). -/
def user_label : String := "user/-/label/"

/-- The stream-identifier normalization inlined in `tag_article`,
`untag_article`, `rename_tag` and `delete_tag`: prefix `x` with
`user_label` exactly when `not x.startswith(user_label)`. -/
def normalize_label (x : String) : String :=
  if py_startswith x user_label then x else user_label ++ x

/-! ### `oauth_client.py`: token records and expiry -/

/-- The persisted token record `{access_token, refresh_token, expires_at,
scope}` built by `exchange_code_for_tokens` / `refresh_access_token`. -/
structure TokenRecord where
  access_token : String
  refresh_token : String
  expires_at : Int
  scope : String
deriving Repr, DecidableEq

/-- `OAuth2Handler.is_token_expired` (oauth_client.py lines 168-181):
`current_time >= (expires_at - buffer_seconds)`, with `current_time` the
ambient `int(time.time())` passed explicitly here, and the default
`buffer_seconds = 300`. -/
def is_token_expired (tokens : TokenRecord) (current_time : Int)
    (buffer_seconds : Int := 300) : Bool :=
  current_time ≥ tokens.expires_at - buffer_seconds

/-! ### Response cache (inoreader_client.py line 17)

`self.cache = TTLCache(maxsize=100, ttl=Config.CACHE_TTL)` from
`cachetools`.  `TTLCache` is a dict keyed map whose entries expire once
`ttl` seconds have elapsed since insertion; it is modelled here as an
association list with at most one live entry per key (dict semantics:
writing a key replaces any previous entry).  The only key ever used by
the client is `"subscription_list"` (line 131), so the `maxsize=100`
bound is never reached and is not modelled. -/

/-- A TTL cache: each entry records the key, the stored value and the
insertion time. -/
structure TTLCacheState (α : Type) where
  entries : List (String × α × Int)
deriving Repr

/-- `cache[key] = value` at time `now`: dict insertion replaces any
previous entry for the key. -/
def cachePut {α : Type} (c : TTLCacheState α) (k : String) (v : α)
    (now : Int) : TTLCacheState α :=
  ⟨(k, v, now) :: c.entries.filter (fun e => e.1 ≠ k)⟩

/-- Lookup (`key in cache` / `cache[key]`) at time `now`: an entry is
returned only while `now < inserted_at + ttl`; an entry whose TTL has
elapsed behaves as missing. -/
def cacheGet {α : Type} (c : TTLCacheState α) (k : String) (now : Int)
    (ttl : Int) : Option α :=
  match c.entries.find? (fun e => e.1 = k) with
  | some (_, v, t0) => if now < t0 + ttl then some v else none
  | none => none

/-- Number of entries stored for key `k`. -/
def cacheCountKey {α : Type} (c : TTLCacheState α) (k : String) : Nat :=
  (c.entries.filter (fun e => e.1 = k)).length

/-! ### A model of `json.loads`

Python's `json` module parses the full JSON grammar; the bodies this
system exchanges are ASCII JSON documents with integer numbers, which is
the fragment implemented here (float literals and string escape
sequences are not modelled).  A successful parse consumes the entire
input up to trailing whitespace. -/

/-- A decoded JSON value (Python: the result of `json.loads`). -/
inductive Json where
  | null
  | bool (b : Bool)
  | num (n : Int)
  | str (s : String)
  | arr (elems : List Json)
  | obj (members : List (String × Json))

/-- Read the remainder of a JSON string literal, positioned after the
opening quote; escape sequences are not modelled. -/
def parseStringLit : List Char → Option (List Char × List Char)
  | [] => none
  | c :: rest =>
    if c == '"' then some ([], rest)
    else if c == '\\' then none
    else
      match parseStringLit rest with
      | some (s, r) => some (c :: s, r)
      | none => none

/-- Accumulate a run of decimal digits into a natural number. -/
def digitsToNat (acc : Nat) : List Char → Nat
  | [] => acc
  | c :: rest => digitsToNat (acc * 10 + (c.toNat - '0'.toNat)) rest

/-- Parse a JSON integer literal: an optional minus sign followed by a
nonempty digit run. -/
def parseNumber (cs : List Char) : Option (Int × List Char) :=
  match cs with
  | '-' :: rest =>
    let ds := rest.takeWhile Char.isDigit
    if ds.isEmpty then none
    else some (-(digitsToNat 0 ds : Int), rest.dropWhile Char.isDigit)
  | _ =>
    let ds := cs.takeWhile Char.isDigit
    if ds.isEmpty then none
    else some ((digitsToNat 0 ds : Int), cs.dropWhile Char.isDigit)

mutual

/-- Parse one JSON value, skipping leading whitespace.  `fuel` bounds the
recursion depth; `json_loads` supplies more fuel than any input can
consume. -/
def parseValue : Nat → List Char → Option (Json × List Char)
  | 0, _ => none
  | fuel + 1, cs =>
    match cs.dropWhile isWs with
    | [] => none
    | '{' :: rest =>
      match rest.dropWhile isWs with
      | '}' :: r2 => some (Json.obj [], r2)
      | _ => (parseMembers fuel rest).map (fun p => (Json.obj p.1, p.2))
    | '[' :: rest =>
      match rest.dropWhile isWs with
      | ']' :: r2 => some (Json.arr [], r2)
      | _ => (parseElems fuel rest).map (fun p => (Json.arr p.1, p.2))
    | '"' :: rest => (parseStringLit rest).map (fun p => (Json.str ⟨p.1⟩, p.2))
    | c :: rest =>
      if c == 't' then
        if ['r', 'u', 'e'].isPrefixOf rest then some (Json.bool true, rest.drop 3)
        else none
      else if c == 'f' then
        if ['a', 'l', 's', 'e'].isPrefixOf rest then
          some (Json.bool false, rest.drop 4)
        else none
      else if c == 'n' then
        if ['u', 'l', 'l'].isPrefixOf rest then some (Json.null, rest.drop 3)
        else none
      else
        (parseNumber (c :: rest)).map (fun p => (Json.num p.1, p.2))

/-- Parse a nonempty member list of a JSON object (a trailing comma is a
parse error, as in Python). -/
def parseMembers : Nat → List Char → Option (List (String × Json) × List Char)
  | 0, _ => none
  | fuel + 1, cs =>
    match cs.dropWhile isWs with
    | '"' :: rest =>
      match parseStringLit rest with
      | none => none
      | some (key, afterKey) =>
        match afterKey.dropWhile isWs with
        | ':' :: afterColon =>
          match parseValue fuel afterColon with
          | none => none
          | some (v, afterVal) =>
            match afterVal.dropWhile isWs with
            | ',' :: afterComma =>
              match parseMembers fuel afterComma with
              | some (kvs, r) => some ((⟨key⟩, v) :: kvs, r)
              | none => none
            | '}' :: rest2 => some ([(⟨key⟩, v)], rest2)
            | _ => none
        | _ => none
    | _ => none

/-- Parse a nonempty element list of a JSON array (a trailing comma is a
parse error, as in Python). -/
def parseElems : Nat → List Char → Option (List Json × List Char)
  | 0, _ => none
  | fuel + 1, cs =>
    match parseValue fuel cs with
    | none => none
    | some (v, afterVal) =>
      match afterVal.dropWhile isWs with
      | ',' :: afterComma =>
        match parseElems fuel afterComma with
        | some (xs, r) => some (v :: xs, r)
        | none => none
      | ']' :: rest2 => some ([v], rest2)
      | _ => none

end

/-- Model of Python's `json.loads`: parse one value and require that only
whitespace remains; any other outcome is a `JSONDecodeError`, modelled as
`none`. -/
def json_loads (s : String) : Option Json :=
  match parseValue (2 * s.data.length + 2) s.data with
  | some (v, rest) => if (rest.dropWhile isWs).isEmpty then some v else none
  | none => none

/-! ### The request layer (inoreader_client.py) -/

/-- An HTTP response as seen by the client: status, the Content-Type
header (`""` when the header is absent, matching
`resp.headers.get("Content-Type", "")`) and the body text. -/
structure HttpResponse where
  status : Nat
  contentType : String
  body : String

/-- The value `InoreaderClient._request` hands back to its callers: the
decoded JSON document when the response declared `application/json`,
otherwise the raw body text. -/
inductive ReqResult where
  | json (j : Json)
  | text (s : String)

/-- `InoreaderClient._request` (inoreader_client.py lines 83-127), as a
function of the response the server produced for the call: a non-200
status raises `Exception(f"API request failed: ...")` with the status and
body in the message; a Content-Type containing `application/json` makes
the body be decoded by `resp.json()` (whose parse failure raises);
any other content type returns the raw body text unparsed. -/
def request (resp : HttpResponse) : Except String ReqResult :=
  if resp.status ≠ 200 then
    .error ("API request failed: " ++ Nat.repr resp.status ++ " - " ++ resp.body)
  else if py_in "application/json" resp.contentType then
    match json_loads resp.body with
    | some j => .ok (.json j)
    | none => .error "JSONDecodeError"
  else
    .ok (.text resp.body)

/-- The timeout handed to every `_request` call (line 94):
`aiohttp.ClientTimeout(total=Config.REQUEST_TIMEOUT)`. -/
def request_timeout : Nat := Config.REQUEST_TIMEOUT

/-- `InoreaderClient._get_headers` (lines 75-81): the headers attached to
every API request.  `auth_token` is the ClientLogin token that
`_authenticate` (lines 39-73) obtained by POSTing the configured
username/password to `accounts/ClientLogin`; the Authorization scheme is
`GoogleLogin`, not an OAuth2 `Bearer` credential. -/
def get_headers (auth_token app_id app_key : String) : List (String × String) :=
  [("Authorization", "GoogleLogin auth=" ++ auth_token),
   ("AppId", app_id), ("AppKey", app_key)]

/-- Side effects the client may perform while issuing one API call. -/
inductive Effect where
  | http (method : String) (endpoint : String)
  | oauth_refresh
  | token_save
deriving DecidableEq, Repr

/-- The effect trace of `InoreaderClient._request` (lines 83-127): it
issues exactly the one HTTP call.  No token-expiry check, token refresh,
or Token Store write occurs anywhere on this path - `oauth_client.py` is
never imported by `inoreader_client.py`, and the only authentication step
is the ClientLogin `_authenticate` performed once in `__aenter__`. -/
def request_effects (method endpoint : String) : List Effect :=
  [Effect.http method endpoint]

/-- The empty-result sentinel `{"items": []}`. -/
def emptyItems : Json := Json.obj [("items", Json.arr [])]

/-- The string-response salvage block shared by `get_stream_contents`
(lines 165-184) and `search` (lines 222-241): a JSON result passes
through; a raw-text result that strips to an opening brace is re-parsed
with `json.loads`, and any failure falls back to the sentinel
`{"items": []}`. -/
def normalize_stream_result : ReqResult → Json
  | .json j => j
  | .text s =>
    if py_startswith (py_strip s) "\x7b" then
      match json_loads s with
      | some j => j
      | none => emptyItems
    else emptyItems

/-- `InoreaderClient.get_stream_contents` (lines 141-184) response
handling: issue the request, then salvage string responses. -/
def get_stream_contents (resp : HttpResponse) : Except String Json :=
  (request resp).map normalize_stream_result

/-- `InoreaderClient.get_stream_item_contents` (lines 186-193): an empty
id list short-circuits to `{"items": []}`; otherwise the `_request`
result is returned to the caller unchanged - including raw text when the
Content-Type was not `application/json`. -/
def get_stream_item_contents (resp : HttpResponse) (item_ids : List String) :
    Except String ReqResult :=
  if item_ids.isEmpty then .ok (.json emptyItems)
  else request resp

/-! ### Tag-editing client calls (inoreader_client.py lines 195-203,
416-477) -/

/-- One POST to the `edit-tag` endpoint: the `i` (item ids), `a` (tags
added) and `r` (tags removed) form fields.  In `mark_as_read` the `a`
field is the single read-state string rather than a list; both shapes are
represented here as the list of tags sent. -/
structure ApiCall where
  endpoint : String
  item_ids : List String
  add_tags : List String
  remove_tags : List String
deriving DecidableEq, Repr

/-- Python `result == "OK"` where `result` is the value `_request`
returned: true exactly when it is the raw text `"OK"`. -/
def isOkText : ReqResult → Bool
  | .text s => s == "OK"
  | .json _ => false

/-- The payload of one `mark_as_read` call (line 200). -/
def mark_as_read_call (item_ids : List String) : ApiCall :=
  ⟨"edit-tag", item_ids, ["user/-/state/com.google/read"], []⟩

/-- `InoreaderClient.mark_as_read` (lines 195-203): an empty id list
returns `True` immediately without any HTTP call; otherwise one POST to
`edit-tag` is issued and success is the response being exactly the text
`"OK"`.  `respond` supplies the remote API's answer to each call; the
second component is the trace of HTTP calls issued. -/
def mark_as_read (respond : ApiCall → ReqResult) (item_ids : List String) :
    Bool × List ApiCall :=
  if item_ids.isEmpty then (true, [])
  else
    (isOkText (respond (mark_as_read_call item_ids)), [mark_as_read_call item_ids])

/-- `InoreaderClient.edit_tag` (lines 416-437): an empty id list returns
`True` immediately without any HTTP call; otherwise one POST to
`edit-tag` carries the ids plus the optional `a`/`r` tag lists (an empty
list models Python's falsy `None`/`[]`, for which the field is omitted). -/
def edit_tag (respond : ApiCall → ReqResult) (item_ids add_tags remove_tags : List String) :
    Bool × List ApiCall :=
  if item_ids.isEmpty then (true, [])
  else
    let call : ApiCall := ⟨"edit-tag", item_ids, add_tags, remove_tags⟩
    (isOkText (respond call), [call])

/-- `InoreaderClient.star_article` (lines 439-443). -/
def star_article (respond : ApiCall → ReqResult) (item_ids : List String) :
    Bool × List ApiCall :=
  edit_tag respond item_ids ["user/-/state/com.google/starred"] []

/-- `InoreaderClient.unstar_article` (lines 445-449). -/
def unstar_article (respond : ApiCall → ReqResult) (item_ids : List String) :
    Bool × List ApiCall :=
  edit_tag respond item_ids [] ["user/-/state/com.google/starred"]

/-- `InoreaderClient.broadcast_article` (lines 451-455). -/
def broadcast_article (respond : ApiCall → ReqResult) (item_ids : List String) :
    Bool × List ApiCall :=
  edit_tag respond item_ids ["user/-/state/com.google/broadcast"] []

/-- `InoreaderClient.like_article` (lines 457-459). -/
def like_article (respond : ApiCall → ReqResult) (item_ids : List String) :
    Bool × List ApiCall :=
  edit_tag respond item_ids ["user/-/state/com.google/like"] []

/-- `InoreaderClient.tag_article` (lines 461-468). -/
def tag_article (respond : ApiCall → ReqResult) (item_ids : List String)
    (tag_name : String) : Bool × List ApiCall :=
  edit_tag respond item_ids [normalize_label tag_name] []

/-- `InoreaderClient.untag_article` (lines 470-477). -/
def untag_article (respond : ApiCall → ReqResult) (item_ids : List String)
    (tag_name : String) : Bool × List ApiCall :=
  edit_tag respond item_ids [] [normalize_label tag_name]

/-! ### tools.py -/

/-- What one tool invocation did: the text it returned, the client calls
it issued, and whether it opened an `InoreaderClient` session at all. -/
structure ToolRun where
  message : String
  calls : List ApiCall
  opened_session : Bool

/-- Modelled from the spec: `utils.chunk_list` (tools.py imports it from
`utils`, a module absent from the sources) splits a list into consecutive
chunks of `n` items each, the last chunk possibly shorter - per the spec
scenario "marking 45 article IDs as read with a chunk size of 20 issues
exactly 3 sequential calls (sizes 20, 20, 5)". -/
def chunk_list {α : Type} (xs : List α) (n : Nat) : List (List α) :=
  if n = 0 then []
  else if h : xs.isEmpty then []
  else xs.take n :: chunk_list (xs.drop n) n
termination_by xs.length
decreasing_by
  have hx : xs ≠ [] := by simpa [List.isEmpty_iff] using h
  have hpos : 0 < xs.length := List.length_pos.mpr hx
  simp only [List.length_drop]
  omega

/-- The chunk loop of `mark_as_read_tool` (tools.py lines 160-166): each
chunk is marked read by one sequential `client.mark_as_read` call, a
succeeding call adds the chunk's length to `success_count`, and the
issued calls accumulate in order.  Returns `(success_count, calls)`. -/
def mark_chunks (respond : ApiCall → ReqResult) :
    List (List String) → Nat × List ApiCall
  | [] => (0, [])
  | c :: cs =>
    let r := mark_as_read respond c
    let rest := mark_chunks respond cs
    ((if r.1 then c.length else 0) + rest.1, r.2 ++ rest.2)

/-- `mark_as_read_tool` (tools.py lines 152-177): an empty id list
returns the fixed message without opening a session; otherwise the ids
are chunked 20 apiece, the chunks are marked read sequentially, and the
reported message depends on how many ids were covered by succeeding
calls. -/
def mark_as_read_tool (respond : ApiCall → ReqResult)
    (article_ids : List String) : ToolRun :=
  if article_ids.isEmpty then ⟨"No article IDs provided.", [], false⟩
  else
    let chunks := chunk_list article_ids 20
    let run := mark_chunks respond chunks
    let msg :=
      if run.1 = article_ids.length then
        "Successfully marked " ++ Nat.repr run.1 ++ " article(s) as read."
      else if 0 < run.1 then
        "Marked " ++ Nat.repr run.1 ++ " out of " ++
          Nat.repr article_ids.length ++ " articles as read."
      else "Failed to mark articles as read."
    ⟨msg, run.2, true⟩

/-- `star_article_tool` (tools.py lines 615-631): an empty id list
returns the fixed message without opening a client session. -/
def star_article_tool (respond : ApiCall → ReqResult)
    (article_ids : List String) : ToolRun :=
  if article_ids.isEmpty then ⟨"No article IDs provided.", [], false⟩
  else
    let r := star_article respond article_ids
    ⟨if r.1 then
        "✓ Successfully starred " ++ Nat.repr article_ids.length ++ " article(s)"
      else "✗ Failed to star articles", r.2, true⟩

/-- `unstar_article_tool` (tools.py lines 634-650). -/
def unstar_article_tool (respond : ApiCall → ReqResult)
    (article_ids : List String) : ToolRun :=
  if article_ids.isEmpty then ⟨"No article IDs provided.", [], false⟩
  else
    let r := unstar_article respond article_ids
    ⟨if r.1 then
        "✓ Successfully unstarred " ++ Nat.repr article_ids.length ++ " article(s)"
      else "✗ Failed to unstar articles", r.2, true⟩

/-- `broadcast_article_tool` (tools.py lines 653-669). -/
def broadcast_article_tool (respond : ApiCall → ReqResult)
    (article_ids : List String) : ToolRun :=
  if article_ids.isEmpty then ⟨"No article IDs provided.", [], false⟩
  else
    let r := broadcast_article respond article_ids
    ⟨if r.1 then
        "✓ Successfully broadcast " ++ Nat.repr article_ids.length ++ " article(s)"
      else "✗ Failed to broadcast articles", r.2, true⟩

/-- `like_article_tool` (tools.py lines 672-688). -/
def like_article_tool (respond : ApiCall → ReqResult)
    (article_ids : List String) : ToolRun :=
  if article_ids.isEmpty then ⟨"No article IDs provided.", [], false⟩
  else
    let r := like_article respond article_ids
    ⟨if r.1 then
        "✓ Successfully liked " ++ Nat.repr article_ids.length ++ " article(s)"
      else "✗ Failed to like articles", r.2, true⟩

/-- `tag_article_tool` (tools.py lines 691-707). -/
def tag_article_tool (respond : ApiCall → ReqResult)
    (article_ids : List String) (tag_name : String) : ToolRun :=
  if article_ids.isEmpty then ⟨"No article IDs provided.", [], false⟩
  else
    let r := tag_article respond article_ids tag_name
    ⟨if r.1 then
        "✓ Successfully tagged " ++ Nat.repr article_ids.length ++
          " article(s) with '" ++ tag_name ++ "'"
      else "✗ Failed to tag articles", r.2, true⟩

/-- `untag_article_tool` (tools.py lines 710-726). -/
def untag_article_tool (respond : ApiCall → ReqResult)
    (article_ids : List String) (tag_name : String) : ToolRun :=
  if article_ids.isEmpty then ⟨"No article IDs provided.", [], false⟩
  else
    let r := untag_article respond article_ids tag_name
    ⟨if r.1 then
        "✓ Successfully removed tag '" ++ tag_name ++ "' from " ++
          Nat.repr article_ids.length ++ " article(s)"
      else "✗ Failed to untag articles", r.2, true⟩

/-! ### OAuth flow engine and token store (oauth_client.py) -/

/-- First value bound to key `k` in a decoded JSON object (Python `dict`
lookup; the documents this system receives have distinct keys). -/
def jlookup (kvs : List (String × Json)) (k : String) : Option Json :=
  (kvs.find? (fun kv => kv.1 == k)).map (fun kv => kv.2)

/-- `result.get("expires_in", 3600)` as used on line 88: a missing key
defaults to `3600`; a numeric value is used as-is; a non-numeric value
would make Python's `int + value` raise, modelled as `none`. -/
def expiresInOf (kvs : List (String × Json)) : Option Int :=
  match jlookup kvs "expires_in" with
  | none => some 3600
  | some (Json.num n) => some n
  | some _ => none

/-- `result.get("scope", "read write")` (line 94); only string scopes are
modelled. -/
def scopeOf (kvs : List (String × Json)) : String :=
  match jlookup kvs "scope" with
  | some (Json.str s) => s
  | _ => "read write"

/-- `OAuth2Handler.exchange_code_for_tokens` (oauth_client.py lines
55-95), as a function of the token endpoint's response and the current
time: a non-200 status raises `Exception(f"Token exchange failed:
{resp.status} - {text}")`; on success the body is decoded and the record
is built with `expires_at = now + expires_in` (3600 when the server omits
a lifetime).  Missing/non-string `access_token` or `refresh_token`
entries make Python raise (`KeyError`); only string tokens are
modelled. -/
def exchange_code_for_tokens (resp : HttpResponse) (now : Int) :
    Except String TokenRecord :=
  if resp.status ≠ 200 then
    .error ("Token exchange failed: " ++ Nat.repr resp.status ++ " - " ++ resp.body)
  else
    match json_loads resp.body with
    | some (Json.obj kvs) =>
      match jlookup kvs "access_token", jlookup kvs "refresh_token" with
      | some (Json.str a_tok), some (Json.str r_tok) =>
        match expiresInOf kvs with
        | some n => .ok ⟨a_tok, r_tok, now + n, scopeOf kvs⟩
        | none => .error "TypeError"
      | _, _ => .error "KeyError"
    | _ => .error "JSONDecodeError"

/-- The state of the token file `~/.config/inoreader-mcp/tokens.json`. -/
inductive TokenFile where
  | absent
  | present (content : String)

/-- `OAuth2Handler.load_tokens` (oauth_client.py lines 135-149): a
missing token file yields `None`; a file that is present but unparseable
raises (`json.JSONDecodeError`/`IOError` are caught and re-raised as
`Exception(f"Failed to load tokens ...")`) - it is NOT treated as
absent. -/
def load_tokens : TokenFile → Except String (Option Json)
  | .absent => .ok none
  | .present content =>
    match json_loads content with
    | some j => .ok (some j)
    | none => .error "Failed to load tokens"

/-! ### The JSON-RPC server (main.py) -/

/-- A JSON-RPC response emitted by `MinimalMCPServer`: either a result
with a text content payload (plus the `isError` flag used for tool
failures) or a protocol error object. -/
inductive RpcResponse where
  | result (id : Int) (content : String) (isError : Bool)
  | rpcError (id : Int) (code : Int) (message : String)
deriving DecidableEq, Repr

/-- `MinimalMCPServer.handle_call_tool` (main.py lines 384-492):
dispatches on the tool name; a tool's raised exception - or the
`ValueError` raised for an unknown tool name - is caught at the boundary
and becomes a `result` payload with `isError: true` and text
`"Error: {e}"`, never a transport-level error.  `run_tool name = none`
models an unknown name (the `else` branch raising
`ValueError(f"Unknown tool: ...")`); `some (Except.error e)` a tool whose
coroutine raised `e`; `some (Except.ok text)` a normal result. -/
def handle_call_tool (run_tool : String → Option (Except String String))
    (msg_id : Int) (name : String) : RpcResponse :=
  match run_tool name with
  | none => .result msg_id ("Error: Unknown tool: " ++ name) true
  | some (.error e) => .result msg_id ("Error: " ++ e) true
  | some (.ok text) => .result msg_id text false

/-- The JSON-RPC methods `handle_message` dispatches (main.py lines
59-66). -/
def knownMethods : List String := ["initialize", "tools/list", "tools/call"]

/-- `MinimalMCPServer.handle_message` (main.py lines 50-70): dispatch on
`method`; an unknown method is answered with error code `-32601` and
message `f"Unknown method: {method}"`; an exception `e` escaping a
handler is answered with `-32603` and `str(e)` as the message.
`dispatch` runs the matched handler, producing either its response or the
exception it raised. -/
def handle_message (dispatch : String → Except String RpcResponse)
    (msg_id : Int) (method : String) : RpcResponse :=
  if method ∈ knownMethods then
    match dispatch method with
    | .ok r => r
    | .error e => .rpcError msg_id (-32603) e
  else .rpcError msg_id (-32601) ("Unknown method: " ++ method)

/-! ### Auxiliary definitions used only by the statements below -/

/-- `needle` occurs verbatim (contiguously) inside `hay`. -/
def hasSubstring (hay needle : String) : Prop :=
  ∃ p q : String, hay = p ++ needle ++ q

/-- The sizes of the chunks `chunk_list` produces, as a function of the
input length alone. -/
def chunkSizes (len n : Nat) : List Nat :=
  if hn : n = 0 then []
  else if hl : len = 0 then []
  else min n len :: chunkSizes (len - n) n
termination_by len
decreasing_by omega

/-! ## Shared lemmas -/

theorem isPrefixOf_append_self {l t : List Char} : l.isPrefixOf (l ++ t) = true := by
  induction l with
  | nil => cases t <;> rfl
  | cons a l ih => simp [List.isPrefixOf, ih]

theorem py_startswith_append_self (p s : String) :
    py_startswith (p ++ s) p = true := by
  unfold py_startswith
  rw [String.data_append]
  exact isPrefixOf_append_self

theorem dropWhile_append_last {p : Char → Bool} {a : Char} (ha : p a = false) :
    ∀ xs : List Char, ∃ ys, (xs ++ [a]).dropWhile p = ys ++ [a] := by
  intro xs
  induction xs with
  | nil => exact ⟨[], by simp [List.dropWhile_cons, ha]⟩
  | cons x xs ih =>
    by_cases hx : p x
    · obtain ⟨ys, hys⟩ := ih
      exact ⟨ys, by simp [List.dropWhile_cons, hx, hys]⟩
    · exact ⟨x :: xs, by simp [List.dropWhile_cons, hx]⟩

/-- A value parse that produced a JSON object must have begun, after
leading whitespace, with an opening brace. -/
theorem parseValue_obj_head : ∀ {fuel : Nat} {cs rest : List Char}
    {kvs : List (String × Json)},
    parseValue fuel cs = some (Json.obj kvs, rest) →
    ∃ t, cs.dropWhile isWs = '{' :: t := by
  intro fuel cs rest kvs h
  match fuel with
  | 0 => simp [parseValue] at h
  | fuel + 1 =>
    rw [parseValue] at h
    split at h
    · simp at h
    · next heq => exact ⟨_, heq⟩
    · next heq =>
      split at h
      · simp at h
      · simp [Option.map_eq_some'] at h
    · next heq =>
      simp [Option.map_eq_some'] at h
    · next heq =>
      repeat' split at h
      all_goals simp_all [Option.map_eq_some']

/-- A body `json.loads` decodes to an object passes the
`result.strip().startswith` check of the salvage block. -/
theorem json_loads_obj_strip {s : String} {kvs : List (String × Json)}
    (h : json_loads s = some (Json.obj kvs)) :
    py_startswith (py_strip s) "\x7b" = true := by
  unfold json_loads at h
  split at h
  · next v rest heq =>
    split at h
    · next hempty =>
      have hv : v = Json.obj kvs := by simpa using h
      subst hv
      obtain ⟨t, ht⟩ := parseValue_obj_head heq
      obtain ⟨ys, hys⟩ :=
        dropWhile_append_last (p := isWs) (a := '{') (by decide) t.reverse
      show ("\x7b").data.isPrefixOf (pyStripChars s.data) = true
      unfold pyStripChars
      rw [ht, List.reverse_cons, hys, List.reverse_append]
      simp [List.isPrefixOf]
    · simp at h
  · simp at h

/-- Two strings with distinct first characters differ. -/
theorem string_head_ne {s t : String} {a b : Char} (ha : s.data.head? = some a)
    (hb : t.data.head? = some b) (hne : a ≠ b) : s ≠ t := by
  intro h
  subst h
  rw [ha] at hb
  exact hne (Option.some.inj hb)

/-! ## C4: token-expiry predicate -/

/-- C4: with the default 300-second buffer, a token whose `expires_at` is
`now + N` is considered expired exactly when `N ≤ 300`; in general
`is_token_expired` is true exactly when `now ≥ expires_at - buffer`. -/
theorem c4_is_token_expired_iff (a r sc : String) (now N : Int)
    (rec : TokenRecord) (t buf : Int) :
    (is_token_expired ⟨a, r, now + N, sc⟩ now = true ↔ N ≤ 300) ∧
    (is_token_expired rec t buf = true ↔ t ≥ rec.expires_at - buf) := by
  constructor
  · simp only [is_token_expired, decide_eq_true_eq]
    omega
  · simp [is_token_expired]

/-! ## C10: stream-identifier normalization -/

/-- C10: the tag/folder normalization used by `tag_article`,
`untag_article`, `rename_tag` and `delete_tag` is idempotent, and an
already-qualified identifier passes through unchanged. -/
theorem c10_normalize_label_idempotent (x : String) :
    normalize_label (normalize_label x) = normalize_label x ∧
    (py_startswith x user_label = true → normalize_label x = x) := by
  constructor
  · unfold normalize_label
    by_cases hx : py_startswith x user_label
    · simp [hx]
    · simp [hx, py_startswith_append_self]
  · intro hx
    simp [normalize_label, hx]

/-- Witness for C10 at an already-qualified identifier. -/
theorem c10_normalize_label_idempotent_witness :
    normalize_label (normalize_label "user/-/label/Tech") =
      normalize_label "user/-/label/Tech" ∧
    normalize_label "user/-/label/Tech" = "user/-/label/Tech" :=
  ⟨(c10_normalize_label_idempotent "user/-/label/Tech").1,
   (c10_normalize_label_idempotent "user/-/label/Tech").2 (by decide)⟩

/-! ## C7: response-cache TTL -/

/-- C7: with the configured 300-second TTL, a get strictly within TTL of
the put returns the stored value, a get once TTL has elapsed returns
none, and after a put exactly one entry exists for the key (last write
wins). -/
theorem c7_cache_ttl {α : Type} (c : TTLCacheState α) (k : String) (v : α)
    (t0 t1 : Int) :
    cacheGet (cachePut c k v t0) k t1 (Config.CACHE_TTL : Int) =
      (if t1 < t0 + 300 then some v else none) ∧
    cacheCountKey (cachePut c k v t0) k = 1 := by
  constructor
  · simp [cacheGet, cachePut, Config.CACHE_TTL]
  · simp only [cacheCountKey, cachePut, List.filter_cons]
    simp [List.filter_filter]

/-! ## C5: token-store load -/

/-- C5: `load_tokens` answers `None` when the token file is absent, the
decoded record when it parses, and an error - never `None` - when the
file is present but structurally unreadable. -/
theorem c5_load_tokens (s : String) :
    load_tokens .absent = .ok none ∧
    (∀ j, json_loads s = some j → load_tokens (.present s) = .ok (some j)) ∧
    (json_loads s = none →
      load_tokens (.present s) = .error "Failed to load tokens") := by
  refine ⟨rfl, ?_, ?_⟩
  · intro j hj
    simp [load_tokens, hj]
  · intro hj
    simp [load_tokens, hj]

/-- Witness for C5: a parseable record loads, a corrupt one errors. -/
theorem c5_load_tokens_witness :
    load_tokens (.present "\x7b\"access_token\": \"a\"\x7d") =
      .ok (some (Json.obj [("access_token", Json.str "a")])) ∧
    load_tokens (.present "\x7b\"access_token\": \"a\"") =
      .error "Failed to load tokens" :=
  ⟨(c5_load_tokens "\x7b\"access_token\": \"a\"\x7d").2.1 _ (by rfl),
   (c5_load_tokens "\x7b\"access_token\": \"a\"").2.2 (by rfl)⟩

/-! ## C9: empty id lists -/

/-- C9: with an empty id list, `mark_as_read` and `edit_tag` (and the
edit-tag helpers built on it) answer `True` without issuing any HTTP
call, and the corresponding tools answer the fixed message without
opening a client session. -/
theorem c9_empty_ids (respond : ApiCall → ReqResult)
    (add_tags remove_tags : List String) (tag_name : String) :
    mark_as_read respond [] = (true, []) ∧
    edit_tag respond [] add_tags remove_tags = (true, []) ∧
    star_article respond [] = (true, []) ∧
    unstar_article respond [] = (true, []) ∧
    broadcast_article respond [] = (true, []) ∧
    like_article respond [] = (true, []) ∧
    tag_article respond [] tag_name = (true, []) ∧
    untag_article respond [] tag_name = (true, []) ∧
    mark_as_read_tool respond [] = ⟨"No article IDs provided.", [], false⟩ ∧
    star_article_tool respond [] = ⟨"No article IDs provided.", [], false⟩ ∧
    unstar_article_tool respond [] = ⟨"No article IDs provided.", [], false⟩ ∧
    broadcast_article_tool respond [] = ⟨"No article IDs provided.", [], false⟩ ∧
    like_article_tool respond [] = ⟨"No article IDs provided.", [], false⟩ ∧
    tag_article_tool respond [] tag_name = ⟨"No article IDs provided.", [], false⟩ ∧
    untag_article_tool respond [] tag_name =
      ⟨"No article IDs provided.", [], false⟩ :=
  ⟨rfl, rfl, rfl, rfl, rfl, rfl, rfl, rfl, rfl, rfl, rfl, rfl, rfl, rfl, rfl⟩

/-! ## C8: JSON-RPC error handling -/

/-- C8: an unknown JSON-RPC method is answered with error code `-32601`,
an exception escaping a handler with `-32603` carrying the exception text,
and a failure inside a tool call is converted at the `handle_call_tool`
boundary into an `isError` text payload rather than escaping to the
transport. -/
theorem c8_rpc_error_handling (dispatch : String → Except String RpcResponse)
    (run_tool : String → Option (Except String String))
    (msg_id : Int) (method name e : String) :
    (method ∉ knownMethods →
      handle_message dispatch msg_id method =
        .rpcError msg_id (-32601) ("Unknown method: " ++ method)) ∧
    (method ∈ knownMethods → dispatch method = .error e →
      handle_message dispatch msg_id method = .rpcError msg_id (-32603) e) ∧
    (run_tool name = some (.error e) →
      handle_call_tool run_tool msg_id name =
        .result msg_id ("Error: " ++ e) true) ∧
    (run_tool name = none →
      handle_call_tool run_tool msg_id name =
        .result msg_id ("Error: Unknown tool: " ++ name) true) := by
  refine ⟨?_, ?_, ?_, ?_⟩
  · intro h
    simp [handle_message, h]
  · intro h hd
    simp [handle_message, h, hd]
  · intro h
    simp [handle_call_tool, h]
  · intro h
    simp [handle_call_tool, h]

/-- Witness for C8 at concrete messages, handlers and tool outcomes. -/
theorem c8_rpc_error_handling_witness :
    handle_message (fun _ => .error "boom") 1 "resources/list" =
      .rpcError 1 (-32601) ("Unknown method: " ++ "resources/list") ∧
    handle_message (fun _ => .error "boom") 2 "tools/call" =
      .rpcError 2 (-32603) "boom" ∧
    handle_call_tool (fun _ => some (.error "boom")) 3 "inoreader_search" =
      .result 3 ("Error: " ++ "boom") true ∧
    handle_call_tool (fun _ => none) 4 "mystery_tool" =
      .result 4 ("Error: Unknown tool: " ++ "mystery_tool") true :=
  ⟨(c8_rpc_error_handling (fun _ => .error "boom") (fun _ => none) 1
      "resources/list" "" "boom").1 (by decide),
   (c8_rpc_error_handling (fun _ => .error "boom") (fun _ => none) 2
      "tools/call" "" "boom").2.1 (by decide) rfl,
   (c8_rpc_error_handling (fun _ => .error "boom")
      (fun _ => some (.error "boom")) 3 "x" "inoreader_search" "boom").2.2.1 rfl,
   (c8_rpc_error_handling (fun _ => .error "boom") (fun _ => none) 4
      "x" "mystery_tool" "boom").2.2.2 rfl⟩

/-! ## C6: authorization-code exchange -/

/-- C6: a non-success token-endpoint response makes the code exchange
fail with an error whose message contains the status code and the
response body verbatim; on success, `expires_at` is `now` plus the
server-declared lifetime, defaulting to 3600 seconds when the server
omits one. -/
theorem c6_exchange_code (resp : HttpResponse) (now : Int)
    (kvs : List (String × Json)) (a_tok r_tok : String) :
    (resp.status ≠ 200 →
      exchange_code_for_tokens resp now =
        .error ("Token exchange failed: " ++ Nat.repr resp.status ++
          " - " ++ resp.body) ∧
      ∀ msg, exchange_code_for_tokens resp now = .error msg →
        hasSubstring msg (Nat.repr resp.status) ∧ hasSubstring msg resp.body) ∧
    (resp.status = 200 → json_loads resp.body = some (Json.obj kvs) →
      jlookup kvs "access_token" = some (Json.str a_tok) →
      jlookup kvs "refresh_token" = some (Json.str r_tok) →
      (∀ n : Int, jlookup kvs "expires_in" = some (Json.num n) →
        exchange_code_for_tokens resp now =
          .ok ⟨a_tok, r_tok, now + n, scopeOf kvs⟩) ∧
      (jlookup kvs "expires_in" = none →
        exchange_code_for_tokens resp now =
          .ok ⟨a_tok, r_tok, now + 3600, scopeOf kvs⟩)) := by
  constructor
  · intro hs
    have herr : exchange_code_for_tokens resp now =
        .error ("Token exchange failed: " ++ Nat.repr resp.status ++
          " - " ++ resp.body) := by
      simp [exchange_code_for_tokens, hs]
    refine ⟨herr, ?_⟩
    intro msg hmsg
    rw [herr] at hmsg
    have hm := Except.error.inj hmsg
    constructor
    · refine ⟨"Token exchange failed: ", " - " ++ resp.body, ?_⟩
      rw [← hm]
      apply String.ext
      simp [String.data_append, List.append_assoc]
    · refine ⟨"Token exchange failed: " ++ Nat.repr resp.status ++ " - ", "", ?_⟩
      rw [← hm]
      apply String.ext
      simp [String.data_append, List.append_assoc]
  · intro hs hb ha hr
    constructor
    · intro n hn
      simp [exchange_code_for_tokens, hs, hb, ha, hr, expiresInOf, hn]
    · intro hn
      simp [exchange_code_for_tokens, hs, hb, ha, hr, expiresInOf, hn]

/-- Witness for C6: a 400 response with body `invalid_grant`, and a
success response with no declared lifetime served at `now = 1000`. -/
theorem c6_exchange_code_witness :
    (exchange_code_for_tokens ⟨400, "", "invalid_grant"⟩ 1000 =
      .error ("Token exchange failed: " ++ Nat.repr 400 ++
        " - " ++ "invalid_grant") ∧
      hasSubstring ("Token exchange failed: 400 - invalid_grant") (Nat.repr 400) ∧
      hasSubstring ("Token exchange failed: 400 - invalid_grant") "invalid_grant") ∧
    exchange_code_for_tokens
        ⟨200, "application/json",
         "\x7b\"access_token\": \"A\", \"refresh_token\": \"R\"\x7d"⟩ 1000 =
      .ok ⟨"A", "R", 1000 + 3600, scopeOf
        [("access_token", Json.str "A"), ("refresh_token", Json.str "R")]⟩ := by
  constructor
  · have h := (c6_exchange_code ⟨400, "", "invalid_grant"⟩ 1000 [] "" "").1
      (by decide)
    exact ⟨h.1, h.2 _ h.1⟩
  · exact ((c6_exchange_code
      ⟨200, "application/json",
       "\x7b\"access_token\": \"A\", \"refresh_token\": \"R\"\x7d"⟩ 1000
      [("access_token", Json.str "A"), ("refresh_token", Json.str "R")]
      "A" "R").2 rfl (by rfl) (by rfl) (by rfl)).2 (by rfl)

/-! ## C1: the request layer's authentication path -/

/-- C1 (refuted by the code): evaluated on a concrete token, the request
layer attaches a ClientLogin `GoogleLogin auth=...` credential - not an
OAuth2 `Bearer` one - its call path performs no expiry check, token
refresh or Token Store write, and `config.py` does not even define the
`INOREADER_USERNAME` attribute that `InoreaderClient.__init__` reads, so
instantiating the client raises `AttributeError`.  Only the claimed
10-second bounded timeout matches the code. -/
theorem c1_request_layer_divergence :
    (get_headers "tok123" "app" "key").lookup "Authorization" =
      some ("GoogleLogin auth=" ++ "tok123") ∧
    py_startswith ("GoogleLogin auth=" ++ "tok123") "Bearer " = false ∧
    Effect.oauth_refresh ∉ request_effects "GET" "subscription/list" ∧
    Effect.token_save ∉ request_effects "GET" "subscription/list" ∧
    request_timeout = 10 ∧
    "INOREADER_USERNAME" ∉ Config.definedAttrs ∧
    "INOREADER_PASSWORD" ∉ Config.definedAttrs :=
  ⟨rfl, by decide, by decide, by decide, rfl, by decide, by decide⟩

/-! ## C2: response normalization -/

/-- C2 counterexample: a 200 `text/plain` response whose body is the
well-formed JSON object string `{"items": []}` is handed back by
`get_stream_item_contents` as the raw string, not as the parsed object -
the salvage block exists only in `get_stream_contents` and `search`, so
this caller does receive an untyped string where a structured result was
expected. -/
theorem c2_raw_string_counterexample :
    json_loads "\x7b\"items\": []\x7d" = some (Json.obj [("items", Json.arr [])]) ∧
    get_stream_item_contents ⟨200, "text/plain", "\x7b\"items\": []\x7d"⟩ ["item1"] =
      .ok (.text "\x7b\"items\": []\x7d") :=
  ⟨rfl, rfl⟩

/-- C2 amended: for the stream-content calls (`get_stream_contents`, and
`search`, which duplicates the same salvage block), an HTTP 200 response
whose Content-Type does not indicate JSON but whose body is a well-formed
JSON object string yields the parsed object, and one whose body does not
parse yields the sentinel `{"items": []}`; other request-layer calls
return the raw string (see the counterexample). -/
theorem c2_stream_normalization (resp : HttpResponse)
    (kvs : List (String × Json)) :
    resp.status = 200 → py_in "application/json" resp.contentType = false →
    ((json_loads resp.body = some (Json.obj kvs) →
      get_stream_contents resp = .ok (Json.obj kvs)) ∧
     (json_loads resp.body = none →
      get_stream_contents resp = .ok emptyItems)) := by
  intro hs hct
  have hreq : request resp = .ok (.text resp.body) := by
    simp [request, hs, hct]
  constructor
  · intro hb
    have hstrip := json_loads_obj_strip hb
    simp [get_stream_contents, hreq, Except.map, normalize_stream_result,
      hstrip, hb]
  · intro hb
    by_cases hstrip : py_startswith (py_strip resp.body) "\x7b"
    · simp [get_stream_contents, hreq, Except.map, normalize_stream_result,
        hstrip, hb]
    · simp [get_stream_contents, hreq, Except.map, normalize_stream_result,
        hstrip]

/-- Witness for the amended C2: a JSON-object body parses and is
returned; a non-JSON body falls back to the sentinel. -/
theorem c2_stream_normalization_witness :
    get_stream_contents ⟨200, "text/plain", "\x7b\"items\": []\x7d"⟩ =
      .ok (Json.obj [("items", Json.arr [])]) ∧
    get_stream_contents ⟨200, "text/plain", "ClientLogin rate limit exceeded"⟩ =
      .ok emptyItems :=
  ⟨(c2_stream_normalization ⟨200, "text/plain", "\x7b\"items\": []\x7d"⟩
      [("items", Json.arr [])] rfl (by rfl)).1 (by rfl),
   (c2_stream_normalization ⟨200, "text/plain", "ClientLogin rate limit exceeded"⟩
      [] rfl (by rfl)).2 (by rfl)⟩

/-! ## C3: chunked mark-as-read -/

theorem mark_as_read_nonempty (respond : ApiCall → ReqResult)
    (c : List String) (hc : c ≠ []) :
    mark_as_read respond c =
      (isOkText (respond (mark_as_read_call c)), [mark_as_read_call c]) := by
  simp [mark_as_read, hc]

theorem chunk_list_ne_nil {α : Type} (xs : List α) (n : Nat) :
    n ≠ 0 → ∀ c ∈ chunk_list xs n, c ≠ [] := by
  induction xs, n using chunk_list.induct with
  | case1 xs => intro hn; omega
  | case2 xs n h1 h2 =>
    intro hn
    rw [chunk_list]
    simp [if_neg h1, dif_pos h2]
  | case3 xs n h1 h2 ih =>
    intro hn c hm
    rw [chunk_list] at hm
    rw [if_neg h1, dif_neg h2] at hm
    rcases List.mem_cons.mp hm with hmm | hmm
    · subst hmm
      have hx : xs ≠ [] := by simpa [List.isEmpty_iff] using h2
      simp only [ne_eq, List.take_eq_nil_iff]
      push_neg
      exact ⟨fun h => h1 h, hx⟩
    · exact ih hn c hmm

theorem chunk_list_sum_length {α : Type} (xs : List α) (n : Nat) :
    n ≠ 0 → ((chunk_list xs n).map List.length).sum = xs.length := by
  induction xs, n using chunk_list.induct with
  | case1 xs => intro hn; omega
  | case2 xs n h1 h2 =>
    intro hn
    rw [chunk_list, if_neg h1, dif_pos h2]
    simp [List.isEmpty_iff.mp h2]
  | case3 xs n h1 h2 ih =>
    intro hn
    rw [chunk_list, if_neg h1, dif_neg h2]
    simp only [List.map_cons, List.sum_cons, ih hn, List.length_take,
      List.length_drop]
    omega

theorem chunk_list_map_length {α : Type} (xs : List α) (n : Nat) :
    (chunk_list xs n).map List.length = chunkSizes xs.length n := by
  induction xs, n using chunk_list.induct with
  | case1 xs => simp [chunk_list, chunkSizes]
  | case2 xs n h1 h2 =>
    rw [chunk_list, if_neg h1, dif_pos h2, chunkSizes]
    simp [List.isEmpty_iff.mp h2]
  | case3 xs n h1 h2 ih =>
    have hx : xs ≠ [] := by simpa [List.isEmpty_iff] using h2
    have hlen : xs.length ≠ 0 := by
      simpa [List.length_eq_zero] using hx
    rw [chunk_list, if_neg h1, dif_neg h2, chunkSizes, dif_neg h1, dif_neg hlen]
    simp [ih, List.length_take, List.length_drop, Nat.min_comm]

theorem chunkSizes_length (len n : Nat) :
    n ≠ 0 → (chunkSizes len n).length = (len + n - 1) / n := by
  induction len using Nat.strong_induction_on with
  | _ len ih =>
    intro hn
    rw [chunkSizes, dif_neg hn]
    by_cases hl : len = 0
    · rw [dif_pos hl]
      have h0 : (n - 1) / n = 0 := Nat.div_eq_of_lt (by omega)
      simp [hl, h0]
    · rw [dif_neg hl]
      by_cases hle : len ≤ n
      · have h2 : len - n = 0 := by omega
        rw [h2, List.length_cons, chunkSizes, dif_neg hn, dif_pos rfl]
        have h1 : (len + n - 1) / n = 1 :=
          Nat.div_eq_of_lt_le (by omega) (by omega)
        simp only [List.length_nil]
        omega
      · have hlt : len - n < len := by omega
        rw [List.length_cons, ih (len - n) hlt hn]
        have h3 : len + n - 1 = (len - n + n - 1) + n := by omega
        rw [h3, Nat.add_div_right _ (by omega)]

theorem mark_chunks_calls (respond : ApiCall → ReqResult) :
    ∀ cs : List (List String), (∀ c ∈ cs, c ≠ []) →
      (mark_chunks respond cs).2 = cs.map mark_as_read_call := by
  intro cs h
  induction cs with
  | nil => rfl
  | cons c cs ih =>
    have hc := h c (by simp)
    have hcs : ∀ c' ∈ cs, c' ≠ [] := fun c' hm => h c' (by simp [hm])
    simp only [mark_chunks, List.map_cons]
    rw [mark_as_read_nonempty respond c hc, ih hcs]
    simp

theorem mark_chunks_count_le (respond : ApiCall → ReqResult)
    (cs : List (List String)) :
    (mark_chunks respond cs).1 ≤ (cs.map List.length).sum := by
  induction cs with
  | nil => simp [mark_chunks]
  | cons c cs ih =>
    simp only [mark_chunks, List.map_cons, List.sum_cons]
    have hsplit :
        (if (mark_as_read respond c).1 then c.length else 0) ≤ c.length := by
      split <;> omega
    omega

theorem mark_chunks_full_iff (respond : ApiCall → ReqResult) :
    ∀ cs : List (List String), (∀ c ∈ cs, c ≠ []) →
      ((mark_chunks respond cs).1 = (cs.map List.length).sum ↔
        ∀ c ∈ cs, isOkText (respond (mark_as_read_call c)) = true) := by
  intro cs h
  induction cs with
  | nil => simp [mark_chunks]
  | cons c cs ih =>
    have hc := h c (by simp)
    have hcs : ∀ c' ∈ cs, c' ≠ [] := fun c' hm => h c' (by simp [hm])
    have hlen : 0 < c.length := List.length_pos.mpr hc
    have hle := mark_chunks_count_le respond cs
    rw [List.forall_mem_cons]
    simp only [mark_chunks, List.map_cons, List.sum_cons,
      mark_as_read_nonempty respond c hc]
    by_cases hok : isOkText (respond (mark_as_read_call c)) = true
    · simp only [hok, if_true, true_and]
      constructor
      · intro hsum
        exact (ih hcs).mp (by omega)
      · intro hall
        rw [(ih hcs).mpr hall]
    · have hfalse : isOkText (respond (mark_as_read_call c)) = false :=
        Bool.eq_false_iff.mpr hok
      simp only [hfalse, Bool.false_eq_true, if_false, false_and, iff_false]
      intro hsum
      omega

theorem head_marked (x : String) : ("Marked " ++ x).data.head? = some 'M' := by
  rw [String.data_append]
  rfl

theorem head_success (x y : String) :
    ("Successfully marked " ++ x ++ y).data.head? = some 'S' := by
  rw [String.data_append, String.data_append]
  rfl

theorem mark_as_read_tool_nonempty (respond : ApiCall → ReqResult)
    (ids : List String) (h : ids ≠ []) :
    mark_as_read_tool respond ids =
      ⟨if (mark_chunks respond (chunk_list ids 20)).1 = ids.length then
          "Successfully marked " ++
            Nat.repr (mark_chunks respond (chunk_list ids 20)).1 ++
            " article(s) as read."
        else if 0 < (mark_chunks respond (chunk_list ids 20)).1 then
          "Marked " ++ Nat.repr (mark_chunks respond (chunk_list ids 20)).1 ++
            " out of " ++ Nat.repr ids.length ++ " articles as read."
        else "Failed to mark articles as read.",
       (mark_chunks respond (chunk_list ids 20)).2, true⟩ := by
  simp [mark_as_read_tool, h]

/-- C3 counterexample (to the claim's universal "for a list of n IDs ...
reports full success iff every chunk call returns success"): at the empty
list the tool issues no calls - so every chunk call vacuously succeeds -
yet it reports the fixed no-ids message, not full success, so the
biconditional fails. -/
theorem c3_empty_list_counterexample :
    (mark_as_read_tool (fun _ => ReqResult.text "OK") []).calls = [] ∧
    (mark_as_read_tool (fun _ => ReqResult.text "OK") []).message =
      "No article IDs provided." ∧
    ¬((mark_as_read_tool (fun _ => ReqResult.text "OK") []).message =
        "Successfully marked " ++ Nat.repr ([] : List String).length ++
          " article(s) as read." ↔
      ∀ call ∈ (mark_as_read_tool (fun _ => ReqResult.text "OK") []).calls,
        isOkText ((fun _ => ReqResult.text "OK") call) = true) := by
  refine ⟨rfl, rfl, ?_⟩
  intro hiff
  have h1 : ∀ call ∈ (mark_as_read_tool (fun _ => ReqResult.text "OK") []).calls,
      isOkText ((fun _ => ReqResult.text "OK") call) = true := by
    intro call hm
    simp [mark_as_read_tool] at hm
  exact absurd (hiff.mpr h1) (by decide)

/-- C3 amended: for every NONEMPTY list of article ids, the tool issues
ceil(n/20) sequential mark-as-read calls whose payloads are exactly the
consecutive 20-sized chunks of the list (45 ids: exactly 3 calls of sizes
20, 20, 5), and it reports "Successfully marked {n} article(s) as read."
exactly when every chunk call returned success.  (At the empty list the
tool instead answers "No article IDs provided." without any call - see
the counterexample.) -/
theorem c3_mark_as_read_chunks (respond : ApiCall → ReqResult)
    (article_ids : List String) (h : article_ids ≠ []) :
    (mark_as_read_tool respond article_ids).calls.length =
      (article_ids.length + 19) / 20 ∧
    (mark_as_read_tool respond article_ids).calls.map ApiCall.item_ids =
      chunk_list article_ids 20 ∧
    (article_ids.length = 45 →
      (mark_as_read_tool respond article_ids).calls.map
        (fun call => call.item_ids.length) = [20, 20, 5]) ∧
    ((mark_as_read_tool respond article_ids).message =
        "Successfully marked " ++ Nat.repr article_ids.length ++
          " article(s) as read." ↔
      ∀ call ∈ (mark_as_read_tool respond article_ids).calls,
        isOkText (respond call) = true) := by
  have h20 : (20 : Nat) ≠ 0 := by omega
  have hch : ∀ c ∈ chunk_list article_ids 20, c ≠ [] :=
    chunk_list_ne_nil article_ids 20 h20
  have hcalls : (mark_chunks respond (chunk_list article_ids 20)).2 =
      (chunk_list article_ids 20).map mark_as_read_call :=
    mark_chunks_calls respond _ hch
  have hsum : ((chunk_list article_ids 20).map List.length).sum =
      article_ids.length := chunk_list_sum_length article_ids 20 h20
  rw [mark_as_read_tool_nonempty respond article_ids h]
  refine ⟨?_, ?_, ?_, ?_⟩
  · show (mark_chunks respond (chunk_list article_ids 20)).2.length = _
    rw [hcalls, List.length_map]
    have hlm := congrArg List.length (chunk_list_map_length article_ids 20)
    rw [List.length_map] at hlm
    rw [hlm, chunkSizes_length article_ids.length 20 h20]
    have h19 : article_ids.length + 20 - 1 = article_ids.length + 19 := by omega
    rw [h19]
  · show (mark_chunks respond (chunk_list article_ids 20)).2.map _ = _
    rw [hcalls, List.map_map]
    have hcomp : (ApiCall.item_ids ∘ mark_as_read_call) =
        (id : List String → List String) := by
      funext c
      rfl
    rw [hcomp, List.map_id]
  · intro h45
    show (mark_chunks respond (chunk_list article_ids 20)).2.map _ = _
    rw [hcalls, List.map_map]
    have hml : (chunk_list article_ids 20).map List.length =
        chunkSizes article_ids.length 20 := chunk_list_map_length article_ids 20
    have hcomp : ((fun call => call.item_ids.length) ∘ mark_as_read_call) =
        List.length (α := String) := by
      funext c
      rfl
    rw [hcomp, hml, h45]
    simp [chunkSizes]
  · show (if (mark_chunks respond (chunk_list article_ids 20)).1 =
        article_ids.length then _ else _) = _ ↔
      ∀ call ∈ (mark_chunks respond (chunk_list article_ids 20)).2,
        isOkText (respond call) = true
    have hiff := mark_chunks_full_iff respond (chunk_list article_ids 20) hch
    rw [hsum] at hiff
    constructor
    · intro hmsg
      by_cases hfull : (mark_chunks respond (chunk_list article_ids 20)).1 =
          article_ids.length
      · intro call hm
        rw [hcalls] at hm
        obtain ⟨c, hcm, rfl⟩ := List.mem_map.mp hm
        exact hiff.mp hfull c hcm
      · exfalso
        rw [if_neg hfull] at hmsg
        by_cases hpos : 0 < (mark_chunks respond (chunk_list article_ids 20)).1
        · rw [if_pos hpos] at hmsg
          exact string_head_ne (head_marked _)
            (head_success (Nat.repr article_ids.length) _) (by decide) hmsg
        · rw [if_neg hpos] at hmsg
          exact string_head_ne (by rfl)
            (head_success (Nat.repr article_ids.length) _) (by decide) hmsg
    · intro hall
      have hfull : (mark_chunks respond (chunk_list article_ids 20)).1 =
          article_ids.length := by
        apply hiff.mpr
        intro c hcm
        exact hall (mark_as_read_call c)
          (by rw [hcalls]; exact List.mem_map_of_mem _ hcm)
      rw [if_pos hfull, hfull]

/-- Witness for the amended C3 at 45 ids with every call succeeding. -/
theorem c3_mark_as_read_chunks_witness :
    (mark_as_read_tool (fun _ => ReqResult.text "OK")
        (List.replicate 45 "id")).calls.map
      (fun call => call.item_ids.length) = [20, 20, 5] ∧
    ((mark_as_read_tool (fun _ => ReqResult.text "OK")
        (List.replicate 45 "id")).message =
      "Successfully marked " ++ Nat.repr (List.replicate 45 "id").length ++
        " article(s) as read." ↔
      ∀ call ∈ (mark_as_read_tool (fun _ => ReqResult.text "OK")
          (List.replicate 45 "id")).calls,
        isOkText ((fun _ => ReqResult.text "OK") call) = true) := by
  have h := c3_mark_as_read_chunks (fun _ => ReqResult.text "OK")
    (List.replicate 45 "id") (by simp)
  exact ⟨h.2.2.1 (by simp), h.2.2.2⟩

end Ino
